import Mathlib

set_option linter.unusedVariables false

/-!
Shallow embedding of the repository file src/wrapper/vertex_wrapper.py.

Modelling conventions:
  * Python dict payloads become association lists over PyVal; lookup is
    first-match, which coincides with dict lookup because dict keys are
    unique.
  * Each formatter method of the OutputFormatter class produces one OutLine
    value tagged with the visual register the method selects; the ANSI color
    sequences are presentation constants and are not re-rendered.
  * The console output of a handler is the list of OutLine values produced,
    in order; a pdb breakpoint is recorded as the marker
    OutLine.breakpointHit at its position in the transcript.
  * A Python exception becomes the err field of HResult; lines already
    printed before the exception are kept, matching console behaviour.
  * f-string rendering of a non-string value is given by pyStr and friends;
    quoting of list elements inside a rendered list is elided (no property
    below depends on the exact rendering).
  * The handler methods never assign to the receiver, so each handler
    returns its receiver unchanged in the self field of HResult.
  * Escapes: \x27 is an apostrophe, \x7b and \x7d are braces, exactly the
    characters printed by the source.
-/

namespace VertexWrapper

/-- Python values that occur in the payload dictionaries of the handlers. -/
inductive PyVal where
  | s (v : String)
  | strList (v : List String)
  | pynone
  deriving DecidableEq

/-- Association-list model of a Python dict with string keys. -/
abbrev Dict := List (String × PyVal)

/-- Rendering of a PyVal by an f-string. -/
def pyStr : PyVal → String
  | .s v => v
  | .strList v => "[" ++ String.intercalate ", " v ++ "]"
  | .pynone => "None"

/-- Rendering of a Python list of strings by an f-string. -/
def pyStrList (xs : List String) : String :=
  "[" ++ String.intercalate ", " xs ++ "]"

/-- Rendering of a Python dict by an f-string. -/
def pyStrDict (d : Dict) : String :=
  "\x7b" ++ String.intercalate ", " (d.map (fun kv => kv.1 ++ ": " ++ pyStr kv.2)) ++ "\x7d"

/-- Rendering of an optional string, None rendered as the word None. -/
def optStr : Option String → String
  | none => "None"
  | some s => s

/-- Rendering of an optional list of strings. -/
def optListStr : Option (List String) → String
  | none => "None"
  | some xs => pyStrList xs

/-- Rendering of an optional dict. -/
def optDictStr : Option Dict → String
  | none => "None"
  | some d => pyStrDict d

/-- Python str.join over a PyVal: joining a list of strings intercalates the
separator, joining a string intercalates its characters, and joining None is
a TypeError, modelled by the result none. -/
def pyJoin (sep : String) : PyVal → Option String
  | .strList xs => some (String.intercalate sep xs)
  | .s v => some (String.intercalate sep (v.data.map (fun c => String.singleton c)))
  | .pynone => none

/-- Python exceptions that the handler bodies can raise. -/
inductive PyErr where
  | keyError (key : String)
  | attributeError (attr : String)
  | indexError
  | typeError
  deriving DecidableEq

/-- One console event produced by a handler: a call to one of the formatter
methods, a bare print, or a pdb suspension. -/
inductive OutLine where
  | heading (text : String)
  | keyInfo (text : String)
  | keyInfoLabeled (label : String) (contents : String) (newlined : Bool)
  | debugInfo (text : String)
  | debugInfoLabeled (label : String) (contents : String) (newlined : Bool)
  | llmCall (text : String)
  | llmOutput (text : String)
  | toolCall (text : String)
  | toolOutput (text : String)
  | debugError (text : String)
  | plainPrint (text : String)
  | breakpointHit
  deriving DecidableEq

/-- The callable surface of the formatting sink passed to the handler class:
one field per method of the OutputFormatter class of the source. -/
structure Formatter where
  heading : String → OutLine
  key_info : String → OutLine
  key_info_labeled : String → String → Bool → OutLine
  debug_info : String → OutLine
  debug_info_labeled : String → String → Bool → OutLine
  llm_call : String → OutLine
  llm_output : String → OutLine
  tool_call : String → OutLine
  tool_output : String → OutLine
  debug_error : String → OutLine

/-- The OutputFormatter class of the source: each method emits the line in
its own visual register. -/
def OutputFormatter : Formatter where
  heading := OutLine.heading
  key_info := OutLine.keyInfo
  key_info_labeled := OutLine.keyInfoLabeled
  debug_info := OutLine.debugInfo
  debug_info_labeled := OutLine.debugInfoLabeled
  llm_call := OutLine.llmCall
  llm_output := OutLine.llmOutput
  tool_call := OutLine.toolCall
  tool_output := OutLine.toolOutput
  debug_error := OutLine.debugError

/-- Configuration of the callback handler, set by its constructor. -/
structure AllChainDetails where
  debug_mode : Bool
  out : Formatter

/-- Result of one handler invocation: the receiver after the call, the
console transcript, and the exception the body raised, if any. -/
structure HResult where
  self : AllChainDetails
  lines : List OutLine
  err : Option PyErr

/-- Generation object inside an LLMResult. -/
structure Generation where
  text : String
  deriving DecidableEq

/-- Rendering of a Generation by an f-string (abbreviated repr). -/
def genStr (g : Generation) : String :=
  "Generation(text=" ++ g.text ++ ")"

/-- LLMResult object passed to on_llm_end. -/
structure LLMResult where
  generations : List (List Generation)
  deriving DecidableEq

/-- Rendering of an LLMResult by an f-string (abbreviated repr). -/
def llmResultStr (r : LLMResult) : String :=
  "LLMResult(generations=[" ++
    String.intercalate ", "
      (r.generations.map (fun gs => "[" ++ String.intercalate ", " (gs.map genStr) ++ "]")) ++
    "])"

/-- AgentAction object: the log attribute is optional to model the hasattr
check of the source. -/
structure AgentAction where
  tool : String
  tool_input : String
  log : Option String
  deriving DecidableEq

/-- Rendering of an AgentAction by an f-string (abbreviated repr). -/
def agentActionStr (a : AgentAction) : String :=
  "AgentAction(tool=" ++ a.tool ++ ", tool_input=" ++ a.tool_input ++
    ", log=" ++ optStr a.log ++ ")"

/-- AgentFinish object: the log attribute is optional to model the hasattr
check of the source. -/
structure AgentFinish where
  return_values : Dict
  log : Option String
  deriving DecidableEq

/-- Rendering of an AgentFinish by an f-string (abbreviated repr). -/
def agentFinishStr (f : AgentFinish) : String :=
  "AgentFinish(return_values=" ++ pyStrDict f.return_values ++
    ", log=" ++ optStr f.log ++ ")"

/-- Document object returned by a retriever. -/
structure Document where
  page_content : String
  metadata : Dict
  deriving DecidableEq

/-- Handler on_text: prints only in debug mode. -/
def AllChainDetails.on_text (self : AllChainDetails) (text : String)
    (color : Option String) (kwargs : Dict) : HResult :=
  let r : List OutLine × Option PyErr :=
    if self.debug_mode then
      let l := [self.out.heading "\n\n> Preparing text."]
      match List.lookup "run_id" kwargs with
      | none => (l, some (PyErr.keyError "run_id"))
      | some run_id =>
        let l := l ++ [self.out.debug_info_labeled "Chain ID" (pyStr run_id) false]
        match List.lookup "parent_run_id" kwargs with
        | none => (l, some (PyErr.keyError "parent_run_id"))
        | some parent_id =>
          let l := l ++ [self.out.debug_info_labeled "Parent chain ID" (pyStr parent_id) false]
          let l := l ++ [self.out.debug_info_labeled "Arguments" (pyStrDict kwargs) false]
          (l ++ [OutLine.plainPrint text], none)
    else ([], none)
  ⟨self, r.1, r.2⟩

/-- Handler on_llm_start. -/
def AllChainDetails.on_llm_start (self : AllChainDetails) (serialized : Dict)
    (prompts : List String) (kwargs : Dict) : HResult :=
  let r : List OutLine × Option PyErr :=
    let l := [self.out.heading "\n\n> Sending text to the LLM."]
    match List.lookup "run_id" kwargs with
    | none => (l, some (PyErr.keyError "run_id"))
    | some run_id =>
      let l := l ++ [self.out.key_info_labeled "Chain ID" (pyStr run_id) false]
      match List.lookup "parent_run_id" kwargs with
      | none => (l, some (PyErr.keyError "parent_run_id"))
      | some parent_id =>
        let l := l ++ [self.out.key_info_labeled "Parent chain ID" (pyStr parent_id) false]
        let l := l ++
          (if prompts.length > 1 then
            [self.out.debug_error "prompts has multiple items.",
             self.out.debug_error "Only outputting first item in prompts."] ++
              (if self.debug_mode then
                [self.out.debug_info_labeled "Prompts" (pyStrList prompts) false,
                 OutLine.breakpointHit]
               else [])
           else [])
        let l := l ++ [self.out.key_info "Text sent to LLM:"]
        match prompts.head? with
        | none => (l, some PyErr.indexError)
        | some p0 =>
          let l := l ++ [self.out.llm_call p0]
          let l := l ++
            (if self.debug_mode then
              [self.out.debug_info_labeled "Arguments" (pyStrDict kwargs) false,
               self.out.debug_info_labeled "serialized" (pyStrDict serialized) false]
             else [])
          (l, none)
  ⟨self, r.1, r.2⟩

/-- Handler on_llm_end. -/
def AllChainDetails.on_llm_end (self : AllChainDetails) (response : LLMResult)
    (kwargs : Dict) : HResult :=
  let r : List OutLine × Option PyErr :=
    let l := [self.out.heading "\n\n> Received response from LLM."]
    match List.lookup "run_id" kwargs with
    | none => (l, some (PyErr.keyError "run_id"))
    | some run_id =>
      let l := l ++ [self.out.key_info_labeled "Chain ID" (pyStr run_id) false]
      match List.lookup "parent_run_id" kwargs with
      | none => (l, some (PyErr.keyError "parent_run_id"))
      | some parent_id =>
        let l := l ++ [self.out.key_info_labeled "Parent chain ID" (pyStr parent_id) false]
        let l := l ++
          (if response.generations.length > 1 then
            [self.out.debug_error "response object has multiple generations.",
             self.out.debug_error "Only outputting first generation in response."] ++
              (if self.debug_mode then
                [self.out.debug_info_labeled "response" (llmResultStr response) false,
                 OutLine.breakpointHit]
               else [])
           else [])
        let l := l ++ [self.out.key_info "Text received from LLM:"]
        match response.generations.head? with
        | none => (l, some PyErr.indexError)
        | some g0 =>
          match g0.head? with
          | none => (l, some PyErr.indexError)
          | some gen =>
            let l := l ++ [self.out.llm_output gen.text]
            let l := l ++
              (if self.debug_mode then
                [self.out.debug_info_labeled "Arguments" (pyStrDict kwargs) false,
                 self.out.debug_info_labeled "response" (llmResultStr response) false]
               else [])
            (l, none)
  ⟨self, r.1, r.2⟩

/-- Handler on_chain_start. When the inputs dict is empty the source calls
self.out.debug.error, but the formatter class has no attribute debug, so
Python raises an AttributeError at that point. -/
def AllChainDetails.on_chain_start (self : AllChainDetails) (serialized : Dict)
    (inputs : Dict) (kwargs : Dict) : HResult :=
  let r : List OutLine × Option PyErr :=
    let l := [self.out.heading "\n\n> Starting new chain."]
    let idStep : List OutLine × Option String :=
      match List.lookup "id" serialized with
      | none =>
          ((if self.debug_mode then
              [self.out.debug_error "Missing serialized[\x27id\x27]",
               self.out.debug_info_labeled "serialized" (pyStrDict serialized) false,
               OutLine.breakpointHit]
            else
              [self.out.debug_error "Missing serialized[\x27id\x27]"]),
           some "Unknown -- serialized[\x27id\x27] is missing")
      | some v => ([], pyJoin "." v)
    match idStep.2 with
    | none => (l ++ idStep.1, some PyErr.typeError)
    | some class_name =>
      let l := l ++ idStep.1
      let l := l ++ [self.out.key_info_labeled "Chain class" class_name false]
      match List.lookup "run_id" kwargs with
      | none => (l, some (PyErr.keyError "run_id"))
      | some run_id =>
        let l := l ++ [self.out.key_info_labeled "Chain ID" (pyStr run_id) false]
        match List.lookup "parent_run_id" kwargs with
        | none => (l, some (PyErr.keyError "parent_run_id"))
        | some parent_id =>
          let l := l ++ [self.out.key_info_labeled "Parent chain ID" (pyStr parent_id) false]
          if inputs.length < 1 then
            (l, some (PyErr.attributeError "debug"))
          else
            let l := l ++ [self.out.key_info "Iterating through keys/values of chain inputs:"]
            let l := l ++ inputs.filterMap (fun kv =>
              if ["stop", "agent_scratchpad"].contains kv.1 then none
              else some (self.out.key_info_labeled ("   " ++ kv.1) (pyStr kv.2) false))
            let l := l ++
              (if self.debug_mode then
                [self.out.debug_info_labeled "Arguments" (pyStrDict kwargs) false,
                 self.out.debug_info_labeled "inputs" (pyStrDict inputs) false,
                 self.out.debug_info_labeled "serialized" (pyStrDict serialized) false]
               else [])
            (l, none)
  ⟨self, r.1, r.2⟩

/-- Handler on_chain_end. When the outputs dict is empty the source calls
self.out.debug_errors, a method that does not exist on the formatter class,
so Python raises an AttributeError at that point. Iterating the entries of
the dict coincides with iterating its keys and subscripting, because dict
keys are unique. -/
def AllChainDetails.on_chain_end (self : AllChainDetails) (outputs : Dict)
    (kwargs : Dict) : HResult :=
  let r : List OutLine × Option PyErr :=
    let l := [self.out.heading "\n\n> Ending chain."]
    match List.lookup "run_id" kwargs with
    | none => (l, some (PyErr.keyError "run_id"))
    | some run_id =>
      let l := l ++ [self.out.key_info_labeled "Chain ID" (pyStr run_id) false]
      match List.lookup "parent_run_id" kwargs with
      | none => (l, some (PyErr.keyError "parent_run_id"))
      | some parent_id =>
        let l := l ++ [self.out.key_info_labeled "Parent chain ID" (pyStr parent_id) false]
        if outputs.length = 0 then
          (l, some (PyErr.attributeError "debug_errors"))
        else
          let l := l ++ outputs.map (fun kv =>
            self.out.key_info_labeled ("Output " ++ kv.1) (pyStr kv.2) true)
          let l := l ++
            (if self.debug_mode then
              [self.out.debug_info_labeled "Arguments" (pyStrDict kwargs) false,
               self.out.debug_info_labeled "outputs" (pyStrDict outputs) false]
             else [])
          (l, none)
  ⟨self, r.1, r.2⟩

/-- Handler on_tool_start. -/
def AllChainDetails.on_tool_start (self : AllChainDetails) (serialized : Dict)
    (input_str : String) (kwargs : Dict) : HResult :=
  let r : List OutLine × Option PyErr :=
    let l := [self.out.heading "\n\n> Using tool."]
    match List.lookup "run_id" kwargs with
    | none => (l, some (PyErr.keyError "run_id"))
    | some run_id =>
      let l := l ++ [self.out.key_info_labeled "Chain ID" (pyStr run_id) false]
      match List.lookup "parent_run_id" kwargs with
      | none => (l, some (PyErr.keyError "parent_run_id"))
      | some parent_id =>
        let l := l ++ [self.out.key_info_labeled "Parent chain ID" (pyStr parent_id) false]
        match List.lookup "name" serialized with
        | none => (l, some (PyErr.keyError "name"))
        | some nm =>
          let l := l ++ [self.out.key_info_labeled "Tool name" (pyStr nm) false]
          let l := l ++ [self.out.key_info "Query sent to tool:"]
          let l := l ++ [self.out.tool_call input_str]
          let l := l ++
            (if self.debug_mode then
              [self.out.debug_info_labeled "Arguments" (pyStrDict kwargs) false,
               self.out.debug_info_labeled "serialized" (pyStrDict serialized) false]
             else [])
          (l, none)
  ⟨self, r.1, r.2⟩

/-- Names of the local variables in scope at the membership test the source
performs against locals() inside on_tool_end: the parameters of the method.
-/
def on_tool_end_locals : List String :=
  ["self", "output", "color", "observation_prefix", "llm_prefix", "kwargs"]

/-- Handler on_tool_end. The source guards the no-output warning by testing
whether the name output is absent from locals(); the embedding performs the
same membership test on the list of local names. -/
def AllChainDetails.on_tool_end (self : AllChainDetails) (output : String)
    (color : Option String) ( observation_prefix : Option String)
    ( llm_prefix : Option String) (kwargs : Dict) : HResult :=
  let r : List OutLine × Option PyErr :=
    let l := [self.out.heading "\n\n> Received tool output."]
    match List.lookup "run_id" kwargs with
    | none => (l, some (PyErr.keyError "run_id"))
    | some run_id =>
      let l := l ++ [self.out.key_info_labeled "Chain ID" (pyStr run_id) false]
      match List.lookup "parent_run_id" kwargs with
      | none => (l, some (PyErr.keyError "parent_run_id"))
      | some parent_id =>
        let l := l ++ [self.out.key_info_labeled "Parent chain ID" (pyStr parent_id) false]
        match List.lookup "name" kwargs with
        | none => (l, some (PyErr.keyError "name"))
        | some nm =>
          let l := l ++ [self.out.key_info_labeled "Tool name" (pyStr nm) false]
          let l := l ++
            (if (on_tool_end_locals.contains "output") = false then
              [self.out.debug_error "No tool output."] ++
                (if self.debug_mode then [OutLine.breakpointHit] else [])
             else
              [self.out.key_info "Response from tool:", self.out.tool_output output])
          let l := l ++
            (if self.debug_mode then
              [self.out.debug_info_labeled "Arguments" (pyStrDict kwargs) false,
               self.out.debug_info_labeled "observation_prefix" (optStr observation_prefix) false,
               self.out.debug_info_labeled "llm_prefix" (optStr llm_prefix) false]
             else [])
          (l, none)
  ⟨self, r.1, r.2⟩

/-- Handler on_agent_action. -/
def AllChainDetails.on_agent_action (self : AllChainDetails) (action : AgentAction)
    (color : Option String) (kwargs : Dict) : HResult :=
  let r : List OutLine × Option PyErr :=
    let l := [self.out.heading "\n\n> Agent taking an action."]
    match List.lookup "run_id" kwargs with
    | none => (l, some (PyErr.keyError "run_id"))
    | some run_id =>
      let l := l ++ [self.out.key_info_labeled "Chain ID" (pyStr run_id) false]
      match List.lookup "parent_run_id" kwargs with
      | none => (l, some (PyErr.keyError "parent_run_id"))
      | some parent_id =>
        let l := l ++ [self.out.key_info_labeled "Parent chain ID" (pyStr parent_id) false]
        let l := l ++
          (match action.log with
           | none =>
              [self.out.debug_error "No log in action."] ++
                (if self.debug_mode then
                  [self.out.debug_info_labeled "action" (agentActionStr action) false,
                   OutLine.breakpointHit]
                 else [])
           | some lg => [self.out.key_info_labeled "Action log" lg true])
        let l := l ++
          (if self.debug_mode then
            [self.out.debug_info_labeled "Arguments" (pyStrDict kwargs) false,
             self.out.debug_info_labeled "action" (agentActionStr action) false]
           else [])
        (l, none)
  ⟨self, r.1, r.2⟩

/-- Handler on_agent_finish. -/
def AllChainDetails.on_agent_finish (self : AllChainDetails) (finish : AgentFinish)
    (color : Option String) (kwargs : Dict) : HResult :=
  let r : List OutLine × Option PyErr :=
    let l := [self.out.heading "\n\n> Agent has finished."]
    match List.lookup "run_id" kwargs with
    | none => (l, some (PyErr.keyError "run_id"))
    | some run_id =>
      let l := l ++ [self.out.key_info_labeled "Chain ID" (pyStr run_id) false]
      match List.lookup "parent_run_id" kwargs with
      | none => (l, some (PyErr.keyError "parent_run_id"))
      | some parent_id =>
        let l := l ++ [self.out.key_info_labeled "Parent chain ID" (pyStr parent_id) false]
        let l := l ++
          (match finish.log with
           | none =>
              [self.out.debug_error "No log in action finish."] ++
                (if self.debug_mode then [OutLine.breakpointHit] else [])
           | some lg => [self.out.key_info_labeled "Action finish log" lg true])
        let l := l ++
          (if self.debug_mode then
            [self.out.debug_info_labeled "Arguments" (pyStrDict kwargs) false,
             self.out.debug_info_labeled "finish" (agentFinishStr finish) false]
           else [])
        (l, none)
  ⟨self, r.1, r.2⟩

/-- Handler on_llm_error. -/
def AllChainDetails.on_llm_error (self : AllChainDetails) (error : String)
    (kwargs : Dict) : HResult :=
  let r : List OutLine × Option PyErr :=
    ([self.out.debug_error "LLM Error",
      self.out.debug_info_labeled "Error object" error false] ++
      (if self.debug_mode then [OutLine.breakpointHit] else []), none)
  ⟨self, r.1, r.2⟩

/-- Handler on_chain_error. -/
def AllChainDetails.on_chain_error (self : AllChainDetails) (error : String)
    (kwargs : Dict) : HResult :=
  let r : List OutLine × Option PyErr :=
    ([self.out.debug_error "Chain Error",
      self.out.debug_info_labeled "Error object" error false] ++
      (if self.debug_mode then [OutLine.breakpointHit] else []), none)
  ⟨self, r.1, r.2⟩

/-- Handler on_tool_error. The source prints the literal text Chain Error
here as well. -/
def AllChainDetails.on_tool_error (self : AllChainDetails) (error : String)
    (kwargs : Dict) : HResult :=
  let r : List OutLine × Option PyErr :=
    ([self.out.debug_error "Chain Error",
      self.out.debug_info_labeled "Error object" error false] ++
      (if self.debug_mode then [OutLine.breakpointHit] else []), none)
  ⟨self, r.1, r.2⟩

/-- Handler on_retriever_start. The run and parent identifiers are named
parameters here, not kwargs entries. -/
def AllChainDetails.on_retriever_start (self : AllChainDetails) (serialized : Dict)
    (query : String) (run_id : String) (parent_run_id : Option String)
    (tags : Option (List String)) (metadata : Option Dict) (kwargs : Dict) : HResult :=
  let r : List OutLine × Option PyErr :=
    let l := [self.out.heading "\n\n> Querying retriever."]
    let l := l ++ [self.out.key_info_labeled "Chain ID" run_id false]
    let l := l ++ [self.out.key_info_labeled "Parent chain ID" (optStr parent_run_id) false]
    let l := l ++ [self.out.key_info_labeled "Tags" (optListStr tags) false]
    let idStep : List OutLine × Option String :=
      match List.lookup "id" serialized with
      | none =>
          ((if self.debug_mode then
              [self.out.debug_error "Missing serialized[\x27id\x27]",
               self.out.debug_info_labeled "serialized" (pyStrDict serialized) false,
               OutLine.breakpointHit]
            else
              [self.out.debug_error "Missing serialized[\x27id\x27]"]),
           some "Unknown -- serialized[\x27id\x27] is missing")
      | some v => ([], pyJoin "." v)
    match idStep.2 with
    | none => (l ++ idStep.1, some PyErr.typeError)
    | some class_name =>
      let l := l ++ idStep.1
      let l := l ++ [self.out.key_info_labeled "Retriever class" class_name false]
      let l := l ++ [self.out.key_info "Query sent to retriever:"]
      let l := l ++ [self.out.tool_call query]
      let l := l ++
        (if self.debug_mode then
          [self.out.debug_info_labeled "Arguments" (pyStrDict kwargs) false,
           self.out.debug_info_labeled "metadata" (optDictStr metadata) false,
           self.out.debug_info_labeled "serialized" (pyStrDict serialized) false]
         else [])
      (l, none)
  ⟨self, r.1, r.2⟩

/-- Per-document block printed by on_retriever_end, in enumeration order. -/
def docLines (out : Formatter) (n : Nat) : List (Nat × Document) → List OutLine
  | [] => []
  | (i, d) :: rest =>
      out.key_info "---------------------------------------------------" ::
      out.key_info ("Document number " ++ toString i ++ " of " ++ toString n) ::
      out.key_info_labeled "Metadata" (pyStrDict d.metadata) false ::
      out.key_info "Document contents:" ::
      out.tool_output d.page_content ::
      docLines out n rest

/-- Handler on_retriever_end. -/
def AllChainDetails.on_retriever_end (self : AllChainDetails)
    (documents : List Document) (run_id : String) (parent_run_id : Option String)
    (kwargs : Dict) : HResult :=
  let r : List OutLine × Option PyErr :=
    let l := [self.out.heading "\n\n> Retriever finished."]
    let l := l ++ [self.out.key_info_labeled "Chain ID" run_id false]
    let l := l ++ [self.out.key_info_labeled "Parent chain ID" (optStr parent_run_id) false]
    let l := l ++ [self.out.key_info ("Found " ++ toString documents.length ++ " documents.")]
    if documents.length = 0 then
      (l ++ [self.out.debug_error "No documents found."] ++
        (if self.debug_mode then [OutLine.breakpointHit] else []), none)
    else
      (l ++ docLines self.out documents.length documents.enum, none)
  ⟨self, r.1, r.2⟩

/-- True exactly on heading lines. -/
def isHeading : OutLine → Bool
  | .heading _ => true
  | _ => false

/-- A transcript with no heading line. -/
def noHeading (ls : List OutLine) : Prop := ∀ l ∈ ls, isHeading l = false

/-- A line carrying the run identifier: labeled Chain ID in either register. -/
def isRunIdLine : OutLine → Bool
  | .keyInfoLabeled lb _ _ => lb == "Chain ID"
  | .debugInfoLabeled lb _ _ => lb == "Chain ID"
  | _ => false

/-- Bool test that pat is a prefix of s. -/
def strStarts (pat s : String) : Bool := pat.data.isPrefixOf s.data

/-- Bool test that character c occurs in s. -/
def strHasChar (s : String) (c : Char) : Bool := s.data.contains c

/-- Plain text carried by a line, labels joined to contents, colors elided. -/
def lineText : OutLine → String
  | .heading t => t
  | .keyInfo t => t
  | .keyInfoLabeled lb c _ => lb ++ ": " ++ c
  | .debugInfo t => t
  | .debugInfoLabeled lb c _ => lb ++ ": " ++ c
  | .llmCall t => t
  | .llmOutput t => t
  | .toolCall t => t
  | .toolOutput t => t
  | .debugError t => t
  | .plainPrint t => t
  | .breakpointHit => ""

/-- Character c occurs in the text of line l. -/
def lineHasChar (l : OutLine) (c : Char) : Bool := strHasChar (lineText l) c

/-- Document-number section heading line of on_retriever_end. -/
def isDocNumLine : OutLine → Bool
  | .keyInfo t => strStarts "Document number " t
  | _ => false

/-- Left cancellation for string concatenation. -/
theorem string_append_cancel (s t u : String) (h : s ++ t = s ++ u) : t = u := by
  have h2 : (s ++ t).data = (s ++ u).data := by rw [h]
  simp [String.data_append] at h2
  exact String.ext h2

/-- C10: on_tool_error prints the bold-red heading with the literal text
Chain Error, which is exactly the heading printed by on_chain_error, so a
tool-error event is indistinguishable from a chain-error event by its
heading; indeed the two handlers produce identical transcripts. -/
theorem C10_tool_error_prints_chain_error (b : Bool) (error : String) (kwargs : Dict) :
    ((AllChainDetails.mk b OutputFormatter).on_tool_error error kwargs).lines.head?
      = some (OutLine.debugError "Chain Error")
    ∧ ∀ (self : AllChainDetails) (e : String) (kw : Dict),
        (self.on_tool_error e kw).lines = (self.on_chain_error e kw).lines := by
  constructor
  · rfl
  · intro self e kw
    rfl

/-- C9: the guard of the no-tool-output warning in on_tool_end tests that
the name output is missing from the local scope, but output is a parameter
of the handler, so the guard is false, the warning branch is unreachable,
and every call that finds its identifiers prints Response from tool:
immediately followed by the tool output. -/
theorem C9_tool_end_warning_unreachable (b : Bool) (output : String)
    (color obs lp : Option String) (kwargs : Dict) (r p nm : PyVal)
    (hr : List.lookup "run_id" kwargs = some r)
    (hp : List.lookup "parent_run_id" kwargs = some p)
    (hn : List.lookup "name" kwargs = some nm) :
    on_tool_end_locals.contains "output" = true
    ∧ OutLine.debugError "No tool output." ∉
        ((AllChainDetails.mk b OutputFormatter).on_tool_end output color obs lp kwargs).lines
    ∧ ∃ pre post,
        ((AllChainDetails.mk b OutputFormatter).on_tool_end output color obs lp kwargs).lines
          = pre ++ [OutLine.keyInfo "Response from tool:", OutLine.toolOutput output] ++ post := by
  refine ⟨by decide, ?_, ?_⟩
  · cases b <;>
      simp [AllChainDetails.on_tool_end, hr, hp, hn, OutputFormatter, on_tool_end_locals]
  · cases b
    · refine ⟨[OutLine.heading "\n\n> Received tool output.",
        OutLine.keyInfoLabeled "Chain ID" (pyStr r) false,
        OutLine.keyInfoLabeled "Parent chain ID" (pyStr p) false,
        OutLine.keyInfoLabeled "Tool name" (pyStr nm) false], [], ?_⟩
      simp [AllChainDetails.on_tool_end, hr, hp, hn, OutputFormatter, on_tool_end_locals]
    · refine ⟨[OutLine.heading "\n\n> Received tool output.",
        OutLine.keyInfoLabeled "Chain ID" (pyStr r) false,
        OutLine.keyInfoLabeled "Parent chain ID" (pyStr p) false,
        OutLine.keyInfoLabeled "Tool name" (pyStr nm) false],
        [OutLine.debugInfoLabeled "Arguments" (pyStrDict kwargs) false,
         OutLine.debugInfoLabeled "observation_prefix" (optStr obs) false,
         OutLine.debugInfoLabeled "llm_prefix" (optStr lp) false], ?_⟩
      simp [AllChainDetails.on_tool_end, hr, hp, hn, OutputFormatter, on_tool_end_locals]

/-- C9 witness: concrete invocation of the guard theorem. -/
theorem C9_witness :
    on_tool_end_locals.contains "output" = true
    ∧ OutLine.debugError "No tool output." ∉
        ((AllChainDetails.mk false OutputFormatter).on_tool_end "result" none none none
          [("run_id", PyVal.s "r1"), ("parent_run_id", PyVal.pynone),
           ("name", PyVal.s "calc")]).lines :=
  let h := C9_tool_end_warning_unreachable false "result" none none none
    [("run_id", PyVal.s "r1"), ("parent_run_id", PyVal.pynone), ("name", PyVal.s "calc")]
    (PyVal.s "r1") PyVal.pynone (PyVal.s "calc") (by decide) (by decide) (by decide)
  ⟨h.1, h.2.1⟩

/-- Helper: labeled lines are never document-number section lines. -/
theorem isDocNumLine_keyInfoLabeled (a c : String) (n : Bool) :
    isDocNumLine (OutLine.keyInfoLabeled a c n) = false := rfl

/-- Helper: tool-output lines are never document-number section lines. -/
theorem isDocNumLine_toolOutput (t : String) :
    isDocNumLine (OutLine.toolOutput t) = false := rfl

/-- Helper: heading lines are never document-number section lines. -/
theorem isDocNumLine_heading (t : String) :
    isDocNumLine (OutLine.heading t) = false := rfl

/-- Helper: the document-count line is not a section line. -/
theorem isDocNumLine_found :
    isDocNumLine (OutLine.keyInfo ("Found " ++ toString (2 : Nat) ++ " documents.")) = false := by
  decide

/-- Helper: the dashed separator is not a section line. -/
theorem isDocNumLine_sep :
    isDocNumLine
      (OutLine.keyInfo "---------------------------------------------------") = false := by
  decide

/-- Helper: the contents label is not a section line. -/
theorem isDocNumLine_contents :
    isDocNumLine (OutLine.keyInfo "Document contents:") = false := by decide

/-- Helper: rendering of the first section line. -/
theorem docnum0_eq :
    OutLine.keyInfo ("Document number " ++ toString (0 : Nat) ++ " of " ++ toString (2 : Nat))
      = OutLine.keyInfo "Document number 0 of 2" := by decide

/-- Helper: rendering of the second section line. -/
theorem docnum1_eq :
    OutLine.keyInfo ("Document number " ++ toString (1 : Nat) ++ " of " ++ toString (2 : Nat))
      = OutLine.keyInfo "Document number 1 of 2" := by decide

/-- Helper: the first section line is a section line. -/
theorem isDocNumLine_dn0 :
    isDocNumLine (OutLine.keyInfo "Document number 0 of 2") = true := by decide

/-- Helper: the second section line is a section line. -/
theorem isDocNumLine_dn1 :
    isDocNumLine (OutLine.keyInfo "Document number 1 of 2") = true := by decide

/-- C6: a retriever-end payload with zero documents yields the line Found 0
documents. and the warning No documents found.; with two documents the
transcript holds exactly two Document number section lines, the one for
document 0 before the one for document 1. -/
theorem C6_retriever_end_sections (b : Bool) (r : String) (p : Option String)
    (kwargs : Dict) (d0 d1 : Document) :
    (OutLine.keyInfo "Found 0 documents." ∈
        ((AllChainDetails.mk b OutputFormatter).on_retriever_end [] r p kwargs).lines
      ∧ OutLine.debugError "No documents found." ∈
        ((AllChainDetails.mk b OutputFormatter).on_retriever_end [] r p kwargs).lines)
    ∧ ((AllChainDetails.mk b OutputFormatter).on_retriever_end [d0, d1] r p kwargs).lines.filter
          isDocNumLine
        = [OutLine.keyInfo "Document number 0 of 2",
           OutLine.keyInfo "Document number 1 of 2"] := by
  refine ⟨⟨?_, ?_⟩, ?_⟩
  · cases b <;> simp [AllChainDetails.on_retriever_end, OutputFormatter] <;> decide
  · cases b <;> simp [AllChainDetails.on_retriever_end, OutputFormatter]
  · have h : ((AllChainDetails.mk b OutputFormatter).on_retriever_end [d0, d1] r p kwargs).lines
        = [OutLine.heading "\n\n> Retriever finished.",
           OutLine.keyInfoLabeled "Chain ID" r false,
           OutLine.keyInfoLabeled "Parent chain ID" (optStr p) false,
           OutLine.keyInfo ("Found " ++ toString (2 : Nat) ++ " documents."),
           OutLine.keyInfo "---------------------------------------------------",
           OutLine.keyInfo
             ("Document number " ++ toString (0 : Nat) ++ " of " ++ toString (2 : Nat)),
           OutLine.keyInfoLabeled "Metadata" (pyStrDict d0.metadata) false,
           OutLine.keyInfo "Document contents:",
           OutLine.toolOutput d0.page_content,
           OutLine.keyInfo "---------------------------------------------------",
           OutLine.keyInfo
             ("Document number " ++ toString (1 : Nat) ++ " of " ++ toString (2 : Nat)),
           OutLine.keyInfoLabeled "Metadata" (pyStrDict d1.metadata) false,
           OutLine.keyInfo "Document contents:",
           OutLine.toolOutput d1.page_content] := by
      simp [AllChainDetails.on_retriever_end, OutputFormatter, docLines, List.enum,
        List.enumFrom]
    rw [h, docnum0_eq, docnum1_eq]
    simp [List.filter_cons, List.filter_nil, isDocNumLine_keyInfoLabeled,
      isDocNumLine_toolOutput, isDocNumLine_heading, isDocNumLine_found, isDocNumLine_sep,
      isDocNumLine_contents, isDocNumLine_dn0, isDocNumLine_dn1]

/-- C3: at a chain-end payload whose output mapping is empty, the handler
raises an AttributeError from the misspelled method name debug_errors before
the warning can be printed, so the transcript holds the heading and the two
identifier lines only: no warning line and no output-key line. -/
theorem C3_chain_end_empty_outputs_bug :
    (((AllChainDetails.mk false OutputFormatter).on_chain_end []
        [("run_id", PyVal.s "r1"), ("parent_run_id", PyVal.pynone)]).err
      = some (PyErr.attributeError "debug_errors"))
    ∧ (((AllChainDetails.mk false OutputFormatter).on_chain_end []
        [("run_id", PyVal.s "r1"), ("parent_run_id", PyVal.pynone)]).lines
      = [OutLine.heading "\n\n> Ending chain.",
         OutLine.keyInfoLabeled "Chain ID" "r1" false,
         OutLine.keyInfoLabeled "Parent chain ID" "None" false]) := by
  exact ⟨rfl, rfl⟩

/-- Helper: the empty transcript has no heading. -/
theorem noHeading_nil : noHeading [] := by
  intro l hl
  simp at hl

/-- Helper: cons preserves absence of headings. -/
theorem noHeading_cons (x : OutLine) (xs : List OutLine) (h1 : isHeading x = false)
    (h2 : noHeading xs) : noHeading (x :: xs) := by
  intro l hl
  rcases List.mem_cons.1 hl with h | h
  · rw [h]; exact h1
  · exact h2 l h

/-- Helper: append preserves absence of headings. -/
theorem noHeading_append (a c : List OutLine) (ha : noHeading a) (hc : noHeading c) :
    noHeading (a ++ c) := by
  intro l hl
  rcases List.mem_append.1 hl with h | h
  · exact ha l h
  · exact hc l h

/-- Helper: a conditional between two heading-free transcripts is
heading-free. -/
theorem noHeading_ite (c : Prop) [Decidable c] (a d : List OutLine)
    (ha : noHeading a) (hd : noHeading d) : noHeading (if c then a else d) := by
  by_cases hc : c
  · simpa [hc] using ha
  · simpa [hc] using hd

/-- Helper: the chain-input key/value lines contain no heading. -/
theorem noHeading_inputLines (inputs : Dict) :
    noHeading (List.filterMap (fun kv =>
      if kv.1 = "stop" ∨ kv.1 = "agent_scratchpad" then none
      else some (OutLine.keyInfoLabeled ("   " ++ kv.1) (pyStr kv.2) false)) inputs) := by
  intro l hl
  rcases List.mem_filterMap.1 hl with ⟨kv, _, hkv⟩
  split at hkv
  · simp at hkv
  · rw [← Option.some.inj hkv]
    rfl

/-- Helper: the chain-output key/value lines contain no heading. -/
theorem noHeading_outputLines (outputs : Dict) :
    noHeading (List.map (fun kv =>
      OutLine.keyInfoLabeled ("Output " ++ kv.1) (pyStr kv.2) true) outputs) := by
  intro l hl
  rcases List.mem_map.1 hl with ⟨kv, _, hkv⟩
  rw [← hkv]
  rfl

/-- Helper: the per-document blocks of on_retriever_end contain no heading. -/
theorem noHeading_docLines (n : Nat) (ps : List (Nat × Document)) :
    noHeading (docLines OutputFormatter n ps) := by
  induction ps with
  | nil =>
      intro l hl
      simp [docLines] at hl
  | cons hd tl ih =>
      obtain ⟨i, d⟩ := hd
      intro l hl
      simp [docLines, OutputFormatter] at hl
      rcases hl with h | h | h | h | h | h
      · rw [h]; rfl
      · rw [h]; rfl
      · rw [h]; rfl
      · rw [h]; rfl
      · rw [h]; rfl
      · exact ih l h

/-- Helper: transcript shape of on_text in verbose mode. -/
theorem c2_on_text_verbose (text : String) (color : Option String) (kwargs : Dict)
    (r p : PyVal)
    (hr : List.lookup "run_id" kwargs = some r)
    (hp : List.lookup "parent_run_id" kwargs = some p) :
    ∃ rest,
      ((AllChainDetails.mk true OutputFormatter).on_text text color kwargs).lines
        = OutLine.heading "\n\n> Preparing text."
          :: OutLine.debugInfoLabeled "Chain ID" (pyStr r) false
          :: OutLine.debugInfoLabeled "Parent chain ID" (pyStr p) false :: rest
      ∧ noHeading rest := by
  simp [AllChainDetails.on_text, hr, hp, OutputFormatter]
  intro l hl
  fin_cases hl <;> rfl

/-- Helper: on_text prints nothing in non-verbose mode. -/
theorem c2_on_text_nonverbose (text : String) (color : Option String) (kwargs : Dict) :
    ((AllChainDetails.mk false OutputFormatter).on_text text color kwargs).lines = [] := rfl

/-- Helper: transcript shape of on_llm_start. -/
theorem c2_on_llm_start (b : Bool) (serialized : Dict) (prompts : List String)
    (kwargs : Dict) (r p : PyVal)
    (hr : List.lookup "run_id" kwargs = some r)
    (hp : List.lookup "parent_run_id" kwargs = some p) :
    ∃ rest,
      ((AllChainDetails.mk b OutputFormatter).on_llm_start serialized prompts kwargs).lines
        = OutLine.heading "\n\n> Sending text to the LLM."
          :: OutLine.keyInfoLabeled "Chain ID" (pyStr r) false
          :: OutLine.keyInfoLabeled "Parent chain ID" (pyStr p) false :: rest
      ∧ noHeading rest := by
  rcases prompts with _ | ⟨p0, ps⟩ <;> [skip; rcases ps with _ | ⟨p1, ps2⟩] <;>
    cases b <;>
    simp [AllChainDetails.on_llm_start, hr, hp, OutputFormatter] <;>
    intro l hl <;>
    fin_cases hl <;> rfl

/-- Helper: transcript shape of on_llm_end. -/
theorem c2_on_llm_end (b : Bool) (response : LLMResult) (kwargs : Dict) (r p : PyVal)
    (hr : List.lookup "run_id" kwargs = some r)
    (hp : List.lookup "parent_run_id" kwargs = some p) :
    ∃ rest,
      ((AllChainDetails.mk b OutputFormatter).on_llm_end response kwargs).lines
        = OutLine.heading "\n\n> Received response from LLM."
          :: OutLine.keyInfoLabeled "Chain ID" (pyStr r) false
          :: OutLine.keyInfoLabeled "Parent chain ID" (pyStr p) false :: rest
      ∧ noHeading rest := by
  obtain ⟨gens⟩ := response
  rcases gens with _ | ⟨g0, gs⟩
  · cases b <;> simp [AllChainDetails.on_llm_end, hr, hp, OutputFormatter] <;>
      intro l hl <;> fin_cases hl <;> rfl
  · rcases g0 with _ | ⟨gen, g0s⟩ <;> rcases gs with _ | ⟨g1, gs2⟩ <;> cases b <;>
      simp [AllChainDetails.on_llm_end, hr, hp, OutputFormatter] <;>
      intro l hl <;> fin_cases hl <;> rfl

/-- Helper: transcript shape of on_chain_start: heading first and exactly
once, with the chain class line printed before the run identifier line. -/
theorem c2_on_chain_start (b : Bool) (serialized inputs kwargs : Dict) (r p : PyVal)
    (hr : List.lookup "run_id" kwargs = some r)
    (hp : List.lookup "parent_run_id" kwargs = some p)
    (hid : List.lookup "id" serialized = none
      ∨ ∃ ids, List.lookup "id" serialized = some (PyVal.strList ids)) :
    ∃ rest,
      ((AllChainDetails.mk b OutputFormatter).on_chain_start serialized inputs kwargs).lines
        = OutLine.heading "\n\n> Starting new chain." :: rest
      ∧ noHeading rest
      ∧ ∃ cn i j, i < j
        ∧ ((AllChainDetails.mk b OutputFormatter).on_chain_start serialized inputs
            kwargs).lines.get? i = some (OutLine.keyInfoLabeled "Chain class" cn false)
        ∧ ((AllChainDetails.mk b OutputFormatter).on_chain_start serialized inputs
            kwargs).lines.get? j = some (OutLine.keyInfoLabeled "Chain ID" (pyStr r) false) := by
  rcases hid with hid | ⟨ids, hid⟩ <;> rcases inputs with _ | ⟨kv, ins⟩ <;> cases b <;>
    simp [AllChainDetails.on_chain_start, hid, hr, hp, pyJoin, OutputFormatter]
  · refine ⟨?_, "Unknown -- serialized[\x27id\x27] is missing", 2, 3, by decide, rfl, rfl⟩
    repeat first
      | exact noHeading_nil
      | exact noHeading_inputLines _
      | refine noHeading_cons _ _ rfl ?_
      | refine noHeading_append _ _ ?_ ?_
  · refine ⟨?_, "Unknown -- serialized[\x27id\x27] is missing", 4, 5, by decide, rfl, rfl⟩
    repeat first
      | exact noHeading_nil
      | exact noHeading_inputLines _
      | refine noHeading_cons _ _ rfl ?_
      | refine noHeading_append _ _ ?_ ?_
  · refine ⟨?_, "Unknown -- serialized[\x27id\x27] is missing", 2, 3, by decide, rfl, rfl⟩
    repeat first
      | exact noHeading_nil
      | exact noHeading_inputLines _
      | refine noHeading_cons _ _ rfl ?_
      | refine noHeading_append _ _ ?_ ?_
  · refine ⟨?_, "Unknown -- serialized[\x27id\x27] is missing", 4, 5, by decide, rfl, rfl⟩
    repeat first
      | exact noHeading_nil
      | exact noHeading_inputLines _
      | refine noHeading_cons _ _ rfl ?_
      | refine noHeading_append _ _ ?_ ?_
  · refine ⟨?_, String.intercalate "." ids, 1, 2, by decide, rfl, rfl⟩
    repeat first
      | exact noHeading_nil
      | exact noHeading_inputLines _
      | refine noHeading_cons _ _ rfl ?_
      | refine noHeading_append _ _ ?_ ?_
  · refine ⟨?_, String.intercalate "." ids, 1, 2, by decide, rfl, rfl⟩
    repeat first
      | exact noHeading_nil
      | exact noHeading_inputLines _
      | refine noHeading_cons _ _ rfl ?_
      | refine noHeading_append _ _ ?_ ?_
  · refine ⟨?_, String.intercalate "." ids, 1, 2, by decide, rfl, rfl⟩
    repeat first
      | exact noHeading_nil
      | exact noHeading_inputLines _
      | refine noHeading_cons _ _ rfl ?_
      | refine noHeading_append _ _ ?_ ?_
  · refine ⟨?_, String.intercalate "." ids, 1, 2, by decide, rfl, rfl⟩
    repeat first
      | exact noHeading_nil
      | exact noHeading_inputLines _
      | refine noHeading_cons _ _ rfl ?_
      | refine noHeading_append _ _ ?_ ?_

/-- Helper: transcript shape of on_chain_end. -/
theorem c2_on_chain_end (b : Bool) (outputs kwargs : Dict) (r p : PyVal)
    (hr : List.lookup "run_id" kwargs = some r)
    (hp : List.lookup "parent_run_id" kwargs = some p) :
    ∃ rest,
      ((AllChainDetails.mk b OutputFormatter).on_chain_end outputs kwargs).lines
        = OutLine.heading "\n\n> Ending chain."
          :: OutLine.keyInfoLabeled "Chain ID" (pyStr r) false
          :: OutLine.keyInfoLabeled "Parent chain ID" (pyStr p) false :: rest
      ∧ noHeading rest := by
  rcases outputs with _ | ⟨kv, outs⟩ <;> cases b <;>
    simp [AllChainDetails.on_chain_end, hr, hp, OutputFormatter] <;>
    repeat first
      | exact noHeading_nil
      | exact noHeading_outputLines _
      | refine noHeading_cons _ _ rfl ?_
      | refine noHeading_append _ _ ?_ ?_

/-- Helper: transcript shape of on_tool_start. -/
theorem c2_on_tool_start (b : Bool) (serialized : Dict) (input_str : String)
    (kwargs : Dict) (r p : PyVal)
    (hr : List.lookup "run_id" kwargs = some r)
    (hp : List.lookup "parent_run_id" kwargs = some p) :
    ∃ rest,
      ((AllChainDetails.mk b OutputFormatter).on_tool_start serialized input_str kwargs).lines
        = OutLine.heading "\n\n> Using tool."
          :: OutLine.keyInfoLabeled "Chain ID" (pyStr r) false
          :: OutLine.keyInfoLabeled "Parent chain ID" (pyStr p) false :: rest
      ∧ noHeading rest := by
  rcases hn : List.lookup "name" serialized with _ | nm <;> cases b <;>
    simp [AllChainDetails.on_tool_start, hr, hp, hn, OutputFormatter] <;>
    intro l hl <;> fin_cases hl <;> rfl

/-- Helper: transcript shape of on_tool_end. -/
theorem c2_on_tool_end (b : Bool) (output : String) (color obs lp : Option String)
    (kwargs : Dict) (r p : PyVal)
    (hr : List.lookup "run_id" kwargs = some r)
    (hp : List.lookup "parent_run_id" kwargs = some p) :
    ∃ rest,
      ((AllChainDetails.mk b OutputFormatter).on_tool_end output color obs lp kwargs).lines
        = OutLine.heading "\n\n> Received tool output."
          :: OutLine.keyInfoLabeled "Chain ID" (pyStr r) false
          :: OutLine.keyInfoLabeled "Parent chain ID" (pyStr p) false :: rest
      ∧ noHeading rest := by
  rcases hn : List.lookup "name" kwargs with _ | nm <;> cases b <;>
    simp [AllChainDetails.on_tool_end, hr, hp, hn, OutputFormatter, on_tool_end_locals] <;>
    intro l hl <;> fin_cases hl <;> rfl

/-- Helper: transcript shape of on_agent_action. -/
theorem c2_on_agent_action (b : Bool) (action : AgentAction) (color : Option String)
    (kwargs : Dict) (r p : PyVal)
    (hr : List.lookup "run_id" kwargs = some r)
    (hp : List.lookup "parent_run_id" kwargs = some p) :
    ∃ rest,
      ((AllChainDetails.mk b OutputFormatter).on_agent_action action color kwargs).lines
        = OutLine.heading "\n\n> Agent taking an action."
          :: OutLine.keyInfoLabeled "Chain ID" (pyStr r) false
          :: OutLine.keyInfoLabeled "Parent chain ID" (pyStr p) false :: rest
      ∧ noHeading rest := by
  obtain ⟨tl, ti, lg⟩ := action
  rcases lg with _ | lg <;> cases b <;>
    simp [AllChainDetails.on_agent_action, hr, hp, OutputFormatter] <;>
    intro l hl <;> fin_cases hl <;> rfl

/-- Helper: transcript shape of on_agent_finish. -/
theorem c2_on_agent_finish (b : Bool) (finish : AgentFinish) (color : Option String)
    (kwargs : Dict) (r p : PyVal)
    (hr : List.lookup "run_id" kwargs = some r)
    (hp : List.lookup "parent_run_id" kwargs = some p) :
    ∃ rest,
      ((AllChainDetails.mk b OutputFormatter).on_agent_finish finish color kwargs).lines
        = OutLine.heading "\n\n> Agent has finished."
          :: OutLine.keyInfoLabeled "Chain ID" (pyStr r) false
          :: OutLine.keyInfoLabeled "Parent chain ID" (pyStr p) false :: rest
      ∧ noHeading rest := by
  obtain ⟨rv, lg⟩ := finish
  rcases lg with _ | lg <;> cases b <;>
    simp [AllChainDetails.on_agent_finish, hr, hp, OutputFormatter] <;>
    intro l hl <;> fin_cases hl <;> rfl

/-- Helper: the three error handlers print neither a heading line nor a run
identifier line. -/
theorem c2_error_handlers (b : Bool) (error : String) (kwargs : Dict) :
    (∀ l ∈ ((AllChainDetails.mk b OutputFormatter).on_llm_error error kwargs).lines,
      isHeading l = false ∧ isRunIdLine l = false)
    ∧ (∀ l ∈ ((AllChainDetails.mk b OutputFormatter).on_chain_error error kwargs).lines,
      isHeading l = false ∧ isRunIdLine l = false)
    ∧ (∀ l ∈ ((AllChainDetails.mk b OutputFormatter).on_tool_error error kwargs).lines,
      isHeading l = false ∧ isRunIdLine l = false) := by
  refine ⟨?_, ?_, ?_⟩ <;> cases b <;>
    simp [AllChainDetails.on_llm_error, AllChainDetails.on_chain_error,
      AllChainDetails.on_tool_error, OutputFormatter, isHeading, isRunIdLine]

/-- Helper: transcript shape of on_retriever_start. -/
theorem c2_on_retriever_start (b : Bool) (serialized : Dict) (query run_id : String)
    (parent_run_id : Option String) (tags : Option (List String))
    (metadata : Option Dict) (kwargs : Dict) :
    ∃ rest,
      ((AllChainDetails.mk b OutputFormatter).on_retriever_start serialized query run_id
          parent_run_id tags metadata kwargs).lines
        = OutLine.heading "\n\n> Querying retriever."
          :: OutLine.keyInfoLabeled "Chain ID" run_id false
          :: OutLine.keyInfoLabeled "Parent chain ID" (optStr parent_run_id) false :: rest
      ∧ noHeading rest := by
  rcases h2 : List.lookup "id" serialized with _ | v
  · cases b <;>
      simp [AllChainDetails.on_retriever_start, h2, OutputFormatter] <;>
      intro l hl <;> fin_cases hl <;> rfl
  · rcases v with s | ids | _ <;> cases b <;>
      simp [AllChainDetails.on_retriever_start, h2, pyJoin, OutputFormatter] <;>
      intro l hl <;> fin_cases hl <;> rfl

/-- Helper: transcript shape of on_retriever_end. -/
theorem c2_on_retriever_end (b : Bool) (documents : List Document) (run_id : String)
    (parent_run_id : Option String) (kwargs : Dict) :
    ∃ rest,
      ((AllChainDetails.mk b OutputFormatter).on_retriever_end documents run_id
          parent_run_id kwargs).lines
        = OutLine.heading "\n\n> Retriever finished."
          :: OutLine.keyInfoLabeled "Chain ID" run_id false
          :: OutLine.keyInfoLabeled "Parent chain ID" (optStr parent_run_id) false :: rest
      ∧ noHeading rest := by
  rcases documents with _ | ⟨d, ds⟩ <;> cases b <;>
    simp [AllChainDetails.on_retriever_end, OutputFormatter] <;>
    repeat first
      | exact noHeading_nil
      | exact noHeading_docLines _ _
      | refine noHeading_cons _ _ rfl ?_
      | refine noHeading_append _ _ ?_ ?_

/-- C2 counterexample: on a well-formed payload the llm-error handler prints
no heading line and no run identifier line at all, so the original claim,
quantified over every event kind, fails at the llm-error event. -/
theorem C2_counterexample :
    ((AllChainDetails.mk false OutputFormatter).on_llm_error "boom"
        [("run_id", PyVal.s "r1"), ("parent_run_id", PyVal.pynone)]).lines
      = [OutLine.debugError "LLM Error",
         OutLine.debugInfoLabeled "Error object" "boom" false]
    ∧ (((AllChainDetails.mk false OutputFormatter).on_llm_error "boom"
        [("run_id", PyVal.s "r1"), ("parent_run_id", PyVal.pynone)]).lines.filter
          isHeading) = []
    ∧ (((AllChainDetails.mk false OutputFormatter).on_llm_error "boom"
        [("run_id", PyVal.s "r1"), ("parent_run_id", PyVal.pynone)]).lines.filter
          isRunIdLine) = [] := by
  refine ⟨rfl, ?_, ?_⟩ <;> decide

/-- C2 amended: every non-error handler except on_text prints exactly one
heading line first; all of them except on_chain_start follow it immediately
with the run identifier line and then the parent run identifier line, before
any payload content; on_chain_start prints the chain class line between its
heading and the identifier lines; on_text prints the heading and the two
identifier lines only in verbose mode and prints nothing otherwise; the
three error handlers print an error line and the error object without any
heading or run identifier line. -/
theorem C2_heading_and_identifiers :
    (∀ (text : String) (color : Option String) (kwargs : Dict) (r p : PyVal),
      List.lookup "run_id" kwargs = some r →
      List.lookup "parent_run_id" kwargs = some p →
      ∃ rest,
        ((AllChainDetails.mk true OutputFormatter).on_text text color kwargs).lines
          = OutLine.heading "\n\n> Preparing text."
            :: OutLine.debugInfoLabeled "Chain ID" (pyStr r) false
            :: OutLine.debugInfoLabeled "Parent chain ID" (pyStr p) false :: rest
        ∧ noHeading rest)
    ∧ (∀ (text : String) (color : Option String) (kwargs : Dict),
      ((AllChainDetails.mk false OutputFormatter).on_text text color kwargs).lines = [])
    ∧ (∀ (b : Bool) (serialized : Dict) (prompts : List String) (kwargs : Dict) (r p : PyVal),
      List.lookup "run_id" kwargs = some r →
      List.lookup "parent_run_id" kwargs = some p →
      ∃ rest,
        ((AllChainDetails.mk b OutputFormatter).on_llm_start serialized prompts kwargs).lines
          = OutLine.heading "\n\n> Sending text to the LLM."
            :: OutLine.keyInfoLabeled "Chain ID" (pyStr r) false
            :: OutLine.keyInfoLabeled "Parent chain ID" (pyStr p) false :: rest
        ∧ noHeading rest)
    ∧ (∀ (b : Bool) (response : LLMResult) (kwargs : Dict) (r p : PyVal),
      List.lookup "run_id" kwargs = some r →
      List.lookup "parent_run_id" kwargs = some p →
      ∃ rest,
        ((AllChainDetails.mk b OutputFormatter).on_llm_end response kwargs).lines
          = OutLine.heading "\n\n> Received response from LLM."
            :: OutLine.keyInfoLabeled "Chain ID" (pyStr r) false
            :: OutLine.keyInfoLabeled "Parent chain ID" (pyStr p) false :: rest
        ∧ noHeading rest)
    ∧ (∀ (b : Bool) (serialized inputs kwargs : Dict) (r p : PyVal),
      List.lookup "run_id" kwargs = some r →
      List.lookup "parent_run_id" kwargs = some p →
      (List.lookup "id" serialized = none
        ∨ ∃ ids, List.lookup "id" serialized = some (PyVal.strList ids)) →
      ∃ rest,
        ((AllChainDetails.mk b OutputFormatter).on_chain_start serialized inputs kwargs).lines
          = OutLine.heading "\n\n> Starting new chain." :: rest
        ∧ noHeading rest
        ∧ ∃ cn i j, i < j
          ∧ ((AllChainDetails.mk b OutputFormatter).on_chain_start serialized inputs
              kwargs).lines.get? i = some (OutLine.keyInfoLabeled "Chain class" cn false)
          ∧ ((AllChainDetails.mk b OutputFormatter).on_chain_start serialized inputs
              kwargs).lines.get? j = some (OutLine.keyInfoLabeled "Chain ID" (pyStr r) false))
    ∧ (∀ (b : Bool) (outputs kwargs : Dict) (r p : PyVal),
      List.lookup "run_id" kwargs = some r →
      List.lookup "parent_run_id" kwargs = some p →
      ∃ rest,
        ((AllChainDetails.mk b OutputFormatter).on_chain_end outputs kwargs).lines
          = OutLine.heading "\n\n> Ending chain."
            :: OutLine.keyInfoLabeled "Chain ID" (pyStr r) false
            :: OutLine.keyInfoLabeled "Parent chain ID" (pyStr p) false :: rest
        ∧ noHeading rest)
    ∧ (∀ (b : Bool) (serialized : Dict) (input_str : String) (kwargs : Dict) (r p : PyVal),
      List.lookup "run_id" kwargs = some r →
      List.lookup "parent_run_id" kwargs = some p →
      ∃ rest,
        ((AllChainDetails.mk b OutputFormatter).on_tool_start serialized input_str
            kwargs).lines
          = OutLine.heading "\n\n> Using tool."
            :: OutLine.keyInfoLabeled "Chain ID" (pyStr r) false
            :: OutLine.keyInfoLabeled "Parent chain ID" (pyStr p) false :: rest
        ∧ noHeading rest)
    ∧ (∀ (b : Bool) (output : String) (color obs lp : Option String) (kwargs : Dict)
        (r p : PyVal),
      List.lookup "run_id" kwargs = some r →
      List.lookup "parent_run_id" kwargs = some p →
      ∃ rest,
        ((AllChainDetails.mk b OutputFormatter).on_tool_end output color obs lp kwargs).lines
          = OutLine.heading "\n\n> Received tool output."
            :: OutLine.keyInfoLabeled "Chain ID" (pyStr r) false
            :: OutLine.keyInfoLabeled "Parent chain ID" (pyStr p) false :: rest
        ∧ noHeading rest)
    ∧ (∀ (b : Bool) (action : AgentAction) (color : Option String) (kwargs : Dict)
        (r p : PyVal),
      List.lookup "run_id" kwargs = some r →
      List.lookup "parent_run_id" kwargs = some p →
      ∃ rest,
        ((AllChainDetails.mk b OutputFormatter).on_agent_action action color kwargs).lines
          = OutLine.heading "\n\n> Agent taking an action."
            :: OutLine.keyInfoLabeled "Chain ID" (pyStr r) false
            :: OutLine.keyInfoLabeled "Parent chain ID" (pyStr p) false :: rest
        ∧ noHeading rest)
    ∧ (∀ (b : Bool) (finish : AgentFinish) (color : Option String) (kwargs : Dict)
        (r p : PyVal),
      List.lookup "run_id" kwargs = some r →
      List.lookup "parent_run_id" kwargs = some p →
      ∃ rest,
        ((AllChainDetails.mk b OutputFormatter).on_agent_finish finish color kwargs).lines
          = OutLine.heading "\n\n> Agent has finished."
            :: OutLine.keyInfoLabeled "Chain ID" (pyStr r) false
            :: OutLine.keyInfoLabeled "Parent chain ID" (pyStr p) false :: rest
        ∧ noHeading rest)
    ∧ (∀ (b : Bool) (error : String) (kwargs : Dict),
      ∀ l ∈ ((AllChainDetails.mk b OutputFormatter).on_llm_error error kwargs).lines,
        isHeading l = false ∧ isRunIdLine l = false)
    ∧ (∀ (b : Bool) (error : String) (kwargs : Dict),
      ∀ l ∈ ((AllChainDetails.mk b OutputFormatter).on_chain_error error kwargs).lines,
        isHeading l = false ∧ isRunIdLine l = false)
    ∧ (∀ (b : Bool) (error : String) (kwargs : Dict),
      ∀ l ∈ ((AllChainDetails.mk b OutputFormatter).on_tool_error error kwargs).lines,
        isHeading l = false ∧ isRunIdLine l = false)
    ∧ (∀ (b : Bool) (serialized : Dict) (query run_id : String)
        (parent_run_id : Option String) (tags : Option (List String))
        (metadata : Option Dict) (kwargs : Dict),
      ∃ rest,
        ((AllChainDetails.mk b OutputFormatter).on_retriever_start serialized query run_id
            parent_run_id tags metadata kwargs).lines
          = OutLine.heading "\n\n> Querying retriever."
            :: OutLine.keyInfoLabeled "Chain ID" run_id false
            :: OutLine.keyInfoLabeled "Parent chain ID" (optStr parent_run_id) false :: rest
        ∧ noHeading rest)
    ∧ (∀ (b : Bool) (documents : List Document) (run_id : String)
        (parent_run_id : Option String) (kwargs : Dict),
      ∃ rest,
        ((AllChainDetails.mk b OutputFormatter).on_retriever_end documents run_id
            parent_run_id kwargs).lines
          = OutLine.heading "\n\n> Retriever finished."
            :: OutLine.keyInfoLabeled "Chain ID" run_id false
            :: OutLine.keyInfoLabeled "Parent chain ID" (optStr parent_run_id) false :: rest
        ∧ noHeading rest) :=
  ⟨c2_on_text_verbose, c2_on_text_nonverbose, c2_on_llm_start, c2_on_llm_end,
   c2_on_chain_start, c2_on_chain_end, c2_on_tool_start, c2_on_tool_end,
   c2_on_agent_action, c2_on_agent_finish,
   fun b e kw => (c2_error_handlers b e kw).1,
   fun b e kw => (c2_error_handlers b e kw).2.1,
   fun b e kw => (c2_error_handlers b e kw).2.2,
   c2_on_retriever_start, c2_on_retriever_end⟩

/-- C2 witness: concrete application of the amended theorem to an llm-start
payload. -/
theorem C2_witness :
    ((AllChainDetails.mk false OutputFormatter).on_llm_start [] ["hello"]
        [("run_id", PyVal.s "r1"), ("parent_run_id", PyVal.pynone)]).lines.head?
      = some (OutLine.heading "\n\n> Sending text to the LLM.") := by
  obtain ⟨rest, h, -⟩ := C2_heading_and_identifiers.2.2.1 false [] ["hello"]
    [("run_id", PyVal.s "r1"), ("parent_run_id", PyVal.pynone)]
    (PyVal.s "r1") PyVal.pynone (by decide) (by decide)
  rw [h]
  rfl

/-- Helper: on_text raises nothing when the identifiers are present. -/
theorem c1_on_text (self : AllChainDetails) (text : String) (color : Option String)
    (kwargs : Dict) (r p : PyVal)
    (hr : List.lookup "run_id" kwargs = some r)
    (hp : List.lookup "parent_run_id" kwargs = some p) :
    (self.on_text text color kwargs).err = none := by
  obtain ⟨b, out⟩ := self
  cases b <;> simp [AllChainDetails.on_text, hr, hp]

/-- Helper: on_llm_start raises nothing when the identifiers are present and
there is at least one prompt. -/
theorem c1_on_llm_start (self : AllChainDetails) (serialized : Dict)
    (prompts : List String) (kwargs : Dict) (r p : PyVal)
    (hr : List.lookup "run_id" kwargs = some r)
    (hp : List.lookup "parent_run_id" kwargs = some p)
    (hne : prompts ≠ []) :
    (self.on_llm_start serialized prompts kwargs).err = none := by
  rcases prompts with _ | ⟨p0, ps⟩
  · exact absurd rfl hne
  · simp [AllChainDetails.on_llm_start, hr, hp]

/-- Helper: on_llm_end raises nothing when the identifiers are present and
the response has a first generation with a first item. -/
theorem c1_on_llm_end (self : AllChainDetails) (response : LLMResult) (kwargs : Dict)
    (r p : PyVal) (g0 : List Generation) (gen : Generation)
    (hr : List.lookup "run_id" kwargs = some r)
    (hp : List.lookup "parent_run_id" kwargs = some p)
    (hg : response.generations.head? = some g0)
    (h0 : g0.head? = some gen) :
    (self.on_llm_end response kwargs).err = none := by
  simp [AllChainDetails.on_llm_end, hr, hp, hg, h0]

/-- Helper: on_chain_start raises nothing when the identifiers are present,
the inputs dict is non-empty, and the serialized id is either absent or a
list of strings. -/
theorem c1_on_chain_start (self : AllChainDetails) (serialized inputs kwargs : Dict)
    (r p : PyVal)
    (hr : List.lookup "run_id" kwargs = some r)
    (hp : List.lookup "parent_run_id" kwargs = some p)
    (hne : inputs ≠ [])
    (hid : List.lookup "id" serialized = none
      ∨ ∃ ids, List.lookup "id" serialized = some (PyVal.strList ids)) :
    (self.on_chain_start serialized inputs kwargs).err = none := by
  rcases inputs with _ | ⟨kv, ins⟩
  · exact absurd rfl hne
  · rcases hid with hid | ⟨ids, hid⟩ <;>
      simp [AllChainDetails.on_chain_start, hid, hr, hp, pyJoin]

/-- Helper: on_chain_end raises nothing when the identifiers are present and
the outputs dict is non-empty. -/
theorem c1_on_chain_end (self : AllChainDetails) (outputs kwargs : Dict) (r p : PyVal)
    (hr : List.lookup "run_id" kwargs = some r)
    (hp : List.lookup "parent_run_id" kwargs = some p)
    (hne : outputs ≠ []) :
    (self.on_chain_end outputs kwargs).err = none := by
  rcases outputs with _ | ⟨kv, outs⟩
  · exact absurd rfl hne
  · simp [AllChainDetails.on_chain_end, hr, hp]

/-- Helper: on_tool_start raises nothing when the identifiers and the tool
name are present. -/
theorem c1_on_tool_start (self : AllChainDetails) (serialized : Dict)
    (input_str : String) (kwargs : Dict) (r p nm : PyVal)
    (hr : List.lookup "run_id" kwargs = some r)
    (hp : List.lookup "parent_run_id" kwargs = some p)
    (hn : List.lookup "name" serialized = some nm) :
    (self.on_tool_start serialized input_str kwargs).err = none := by
  simp [AllChainDetails.on_tool_start, hr, hp, hn]

/-- Helper: on_tool_end raises nothing when the identifiers and the tool
name are present. -/
theorem c1_on_tool_end (self : AllChainDetails) (output : String)
    (color obs lp : Option String) (kwargs : Dict) (r p nm : PyVal)
    (hr : List.lookup "run_id" kwargs = some r)
    (hp : List.lookup "parent_run_id" kwargs = some p)
    (hn : List.lookup "name" kwargs = some nm) :
    (self.on_tool_end output color obs lp kwargs).err = none := by
  simp [AllChainDetails.on_tool_end, hr, hp, hn]

/-- Helper: on_agent_action raises nothing when the identifiers are
present. -/
theorem c1_on_agent_action (self : AllChainDetails) (action : AgentAction)
    (color : Option String) (kwargs : Dict) (r p : PyVal)
    (hr : List.lookup "run_id" kwargs = some r)
    (hp : List.lookup "parent_run_id" kwargs = some p) :
    (self.on_agent_action action color kwargs).err = none := by
  simp [AllChainDetails.on_agent_action, hr, hp]

/-- Helper: on_agent_finish raises nothing when the identifiers are
present. -/
theorem c1_on_agent_finish (self : AllChainDetails) (finish : AgentFinish)
    (color : Option String) (kwargs : Dict) (r p : PyVal)
    (hr : List.lookup "run_id" kwargs = some r)
    (hp : List.lookup "parent_run_id" kwargs = some p) :
    (self.on_agent_finish finish color kwargs).err = none := by
  simp [AllChainDetails.on_agent_finish, hr, hp]

/-- Helper: the three error handlers never raise. -/
theorem c1_error_handlers (self : AllChainDetails) (error : String) (kwargs : Dict) :
    (self.on_llm_error error kwargs).err = none
    ∧ (self.on_chain_error error kwargs).err = none
    ∧ (self.on_tool_error error kwargs).err = none :=
  ⟨rfl, rfl, rfl⟩

/-- Helper: on_retriever_start raises nothing when the serialized id is
either absent or a list of strings. -/
theorem c1_on_retriever_start (self : AllChainDetails) (serialized : Dict)
    (query run_id : String) (parent_run_id : Option String)
    (tags : Option (List String)) (metadata : Option Dict) (kwargs : Dict)
    (hid : List.lookup "id" serialized = none
      ∨ ∃ ids, List.lookup "id" serialized = some (PyVal.strList ids)) :
    (self.on_retriever_start serialized query run_id parent_run_id tags metadata
      kwargs).err = none := by
  rcases hid with hid | ⟨ids, hid⟩ <;>
    simp [AllChainDetails.on_retriever_start, hid, pyJoin]

/-- Helper: on_retriever_end never raises. -/
theorem c1_on_retriever_end (self : AllChainDetails) (documents : List Document)
    (run_id : String) (parent_run_id : Option String) (kwargs : Dict) :
    (self.on_retriever_end documents run_id parent_run_id kwargs).err = none := by
  rcases documents with _ | ⟨d, ds⟩ <;> simp [AllChainDetails.on_retriever_end]

/-- C1 counterexample: on a malformed llm-start payload whose kwargs dict is
missing the run_id key, the handler raises a KeyError instead of returning
normally, refuting the original claim. -/
theorem C1_counterexample :
    ((AllChainDetails.mk false OutputFormatter).on_llm_start [] ["a"] []).err
      = some (PyErr.keyError "run_id")
    ∧ ((AllChainDetails.mk false OutputFormatter).on_llm_start [] ["a"] []).err ≠ none := by
  exact ⟨rfl, by decide⟩

/-- C1 amended: every handler returns normally (raises nothing) on payloads
that supply what it reads: the run and parent identifiers where they come
from kwargs, the tool name where one is read, at least one prompt and one
generation, non-empty chain inputs and outputs, and a serialized id that is
absent or a list of strings; the three error handlers and on_retriever_end
return normally on every payload. On payloads missing these parts a handler
raises instead of returning. -/
theorem C1_wellformed_payloads_return_normally :
    (∀ (self : AllChainDetails) (text : String) (color : Option String) (kwargs : Dict)
        (r p : PyVal),
      List.lookup "run_id" kwargs = some r →
      List.lookup "parent_run_id" kwargs = some p →
      (self.on_text text color kwargs).err = none)
    ∧ (∀ (self : AllChainDetails) (serialized : Dict) (prompts : List String)
        (kwargs : Dict) (r p : PyVal),
      List.lookup "run_id" kwargs = some r →
      List.lookup "parent_run_id" kwargs = some p →
      prompts ≠ [] →
      (self.on_llm_start serialized prompts kwargs).err = none)
    ∧ (∀ (self : AllChainDetails) (response : LLMResult) (kwargs : Dict) (r p : PyVal)
        (g0 : List Generation) (gen : Generation),
      List.lookup "run_id" kwargs = some r →
      List.lookup "parent_run_id" kwargs = some p →
      response.generations.head? = some g0 →
      g0.head? = some gen →
      (self.on_llm_end response kwargs).err = none)
    ∧ (∀ (self : AllChainDetails) (serialized inputs kwargs : Dict) (r p : PyVal),
      List.lookup "run_id" kwargs = some r →
      List.lookup "parent_run_id" kwargs = some p →
      inputs ≠ [] →
      (List.lookup "id" serialized = none
        ∨ ∃ ids, List.lookup "id" serialized = some (PyVal.strList ids)) →
      (self.on_chain_start serialized inputs kwargs).err = none)
    ∧ (∀ (self : AllChainDetails) (outputs kwargs : Dict) (r p : PyVal),
      List.lookup "run_id" kwargs = some r →
      List.lookup "parent_run_id" kwargs = some p →
      outputs ≠ [] →
      (self.on_chain_end outputs kwargs).err = none)
    ∧ (∀ (self : AllChainDetails) (serialized : Dict) (input_str : String)
        (kwargs : Dict) (r p nm : PyVal),
      List.lookup "run_id" kwargs = some r →
      List.lookup "parent_run_id" kwargs = some p →
      List.lookup "name" serialized = some nm →
      (self.on_tool_start serialized input_str kwargs).err = none)
    ∧ (∀ (self : AllChainDetails) (output : String) (color obs lp : Option String)
        (kwargs : Dict) (r p nm : PyVal),
      List.lookup "run_id" kwargs = some r →
      List.lookup "parent_run_id" kwargs = some p →
      List.lookup "name" kwargs = some nm →
      (self.on_tool_end output color obs lp kwargs).err = none)
    ∧ (∀ (self : AllChainDetails) (action : AgentAction) (color : Option String)
        (kwargs : Dict) (r p : PyVal),
      List.lookup "run_id" kwargs = some r →
      List.lookup "parent_run_id" kwargs = some p →
      (self.on_agent_action action color kwargs).err = none)
    ∧ (∀ (self : AllChainDetails) (finish : AgentFinish) (color : Option String)
        (kwargs : Dict) (r p : PyVal),
      List.lookup "run_id" kwargs = some r →
      List.lookup "parent_run_id" kwargs = some p →
      (self.on_agent_finish finish color kwargs).err = none)
    ∧ (∀ (self : AllChainDetails) (error : String) (kwargs : Dict),
      (self.on_llm_error error kwargs).err = none)
    ∧ (∀ (self : AllChainDetails) (error : String) (kwargs : Dict),
      (self.on_chain_error error kwargs).err = none)
    ∧ (∀ (self : AllChainDetails) (error : String) (kwargs : Dict),
      (self.on_tool_error error kwargs).err = none)
    ∧ (∀ (self : AllChainDetails) (serialized : Dict) (query run_id : String)
        (parent_run_id : Option String) (tags : Option (List String))
        (metadata : Option Dict) (kwargs : Dict),
      (List.lookup "id" serialized = none
        ∨ ∃ ids, List.lookup "id" serialized = some (PyVal.strList ids)) →
      (self.on_retriever_start serialized query run_id parent_run_id tags metadata
        kwargs).err = none)
    ∧ (∀ (self : AllChainDetails) (documents : List Document) (run_id : String)
        (parent_run_id : Option String) (kwargs : Dict),
      (self.on_retriever_end documents run_id parent_run_id kwargs).err = none) :=
  ⟨c1_on_text, c1_on_llm_start, c1_on_llm_end, c1_on_chain_start, c1_on_chain_end,
   c1_on_tool_start, c1_on_tool_end, c1_on_agent_action, c1_on_agent_finish,
   fun self e kw => (c1_error_handlers self e kw).1,
   fun self e kw => (c1_error_handlers self e kw).2.1,
   fun self e kw => (c1_error_handlers self e kw).2.2,
   c1_on_retriever_start, c1_on_retriever_end⟩

/-- C1 witness: concrete application of the amended theorem to a chain-end
payload. -/
theorem C1_witness :
    ((AllChainDetails.mk false OutputFormatter).on_chain_end [("text", PyVal.s "hi")]
        [("run_id", PyVal.s "r1"), ("parent_run_id", PyVal.pynone)]).err = none :=
  C1_wellformed_payloads_return_normally.2.2.2.2.1
    (AllChainDetails.mk false OutputFormatter) [("text", PyVal.s "hi")]
    [("run_id", PyVal.s "r1"), ("parent_run_id", PyVal.pynone)]
    (PyVal.s "r1") PyVal.pynone (by decide) (by decide) (by decide)

/-- C8: every handler leaves the reporter configuration (the debug flag and
the output sink record) exactly as constructed, and invoking the handler a
second time on the reporter returned by the first call, with the identical
payload, produces the identical transcript. -/
theorem C8_handlers_idempotent_and_configuration_immutable :
    (∀ (self : AllChainDetails) (text : String) (color : Option String) (kwargs : Dict),
      (self.on_text text color kwargs).self = self
      ∧ (((self.on_text text color kwargs).self).on_text text color kwargs).lines
        = (self.on_text text color kwargs).lines)
    ∧ (∀ (self : AllChainDetails) (serialized : Dict) (prompts : List String)
        (kwargs : Dict),
      (self.on_llm_start serialized prompts kwargs).self = self
      ∧ (((self.on_llm_start serialized prompts kwargs).self).on_llm_start serialized
          prompts kwargs).lines = (self.on_llm_start serialized prompts kwargs).lines)
    ∧ (∀ (self : AllChainDetails) (response : LLMResult) (kwargs : Dict),
      (self.on_llm_end response kwargs).self = self
      ∧ (((self.on_llm_end response kwargs).self).on_llm_end response kwargs).lines
        = (self.on_llm_end response kwargs).lines)
    ∧ (∀ (self : AllChainDetails) (serialized inputs kwargs : Dict),
      (self.on_chain_start serialized inputs kwargs).self = self
      ∧ (((self.on_chain_start serialized inputs kwargs).self).on_chain_start serialized
          inputs kwargs).lines = (self.on_chain_start serialized inputs kwargs).lines)
    ∧ (∀ (self : AllChainDetails) (outputs kwargs : Dict),
      (self.on_chain_end outputs kwargs).self = self
      ∧ (((self.on_chain_end outputs kwargs).self).on_chain_end outputs kwargs).lines
        = (self.on_chain_end outputs kwargs).lines)
    ∧ (∀ (self : AllChainDetails) (serialized : Dict) (input_str : String)
        (kwargs : Dict),
      (self.on_tool_start serialized input_str kwargs).self = self
      ∧ (((self.on_tool_start serialized input_str kwargs).self).on_tool_start serialized
          input_str kwargs).lines = (self.on_tool_start serialized input_str kwargs).lines)
    ∧ (∀ (self : AllChainDetails) (output : String) (color obs lp : Option String)
        (kwargs : Dict),
      (self.on_tool_end output color obs lp kwargs).self = self
      ∧ (((self.on_tool_end output color obs lp kwargs).self).on_tool_end output color obs
          lp kwargs).lines = (self.on_tool_end output color obs lp kwargs).lines)
    ∧ (∀ (self : AllChainDetails) (action : AgentAction) (color : Option String)
        (kwargs : Dict),
      (self.on_agent_action action color kwargs).self = self
      ∧ (((self.on_agent_action action color kwargs).self).on_agent_action action color
          kwargs).lines = (self.on_agent_action action color kwargs).lines)
    ∧ (∀ (self : AllChainDetails) (finish : AgentFinish) (color : Option String)
        (kwargs : Dict),
      (self.on_agent_finish finish color kwargs).self = self
      ∧ (((self.on_agent_finish finish color kwargs).self).on_agent_finish finish color
          kwargs).lines = (self.on_agent_finish finish color kwargs).lines)
    ∧ (∀ (self : AllChainDetails) (error : String) (kwargs : Dict),
      (self.on_llm_error error kwargs).self = self
      ∧ (((self.on_llm_error error kwargs).self).on_llm_error error kwargs).lines
        = (self.on_llm_error error kwargs).lines)
    ∧ (∀ (self : AllChainDetails) (error : String) (kwargs : Dict),
      (self.on_chain_error error kwargs).self = self
      ∧ (((self.on_chain_error error kwargs).self).on_chain_error error kwargs).lines
        = (self.on_chain_error error kwargs).lines)
    ∧ (∀ (self : AllChainDetails) (error : String) (kwargs : Dict),
      (self.on_tool_error error kwargs).self = self
      ∧ (((self.on_tool_error error kwargs).self).on_tool_error error kwargs).lines
        = (self.on_tool_error error kwargs).lines)
    ∧ (∀ (self : AllChainDetails) (serialized : Dict) (query run_id : String)
        (parent_run_id : Option String) (tags : Option (List String))
        (metadata : Option Dict) (kwargs : Dict),
      (self.on_retriever_start serialized query run_id parent_run_id tags metadata
        kwargs).self = self
      ∧ (((self.on_retriever_start serialized query run_id parent_run_id tags metadata
          kwargs).self).on_retriever_start serialized query run_id parent_run_id tags
          metadata kwargs).lines
        = (self.on_retriever_start serialized query run_id parent_run_id tags metadata
          kwargs).lines)
    ∧ (∀ (self : AllChainDetails) (documents : List Document) (run_id : String)
        (parent_run_id : Option String) (kwargs : Dict),
      (self.on_retriever_end documents run_id parent_run_id kwargs).self = self
      ∧ (((self.on_retriever_end documents run_id parent_run_id kwargs).self).on_retriever_end
          documents run_id parent_run_id kwargs).lines
        = (self.on_retriever_end documents run_id parent_run_id kwargs).lines) := by
  refine ⟨?_, ?_, ?_, ?_, ?_, ?_, ?_, ?_, ?_, ?_, ?_, ?_, ?_, ?_⟩ <;>
    intros <;> exact ⟨rfl, rfl⟩

/-- C7: when the serialized mapping of a chain-start or retriever-start
payload lacks the id key, the handler prints a class line carrying the
Unknown sentinel, emits the missing-id warning, and suspends at a breakpoint
when verbose; when the id key holds a list of strings, the printed class
name is those components joined with a dot. -/
theorem C7_missing_id_sentinel :
    strStarts "Unknown" "Unknown -- serialized[\x27id\x27] is missing" = true
    ∧ (∀ (b : Bool) (serialized inputs kwargs : Dict) (r p : PyVal),
      List.lookup "run_id" kwargs = some r →
      List.lookup "parent_run_id" kwargs = some p →
      List.lookup "id" serialized = none →
      OutLine.debugError "Missing serialized[\x27id\x27]" ∈
        ((AllChainDetails.mk b OutputFormatter).on_chain_start serialized inputs
          kwargs).lines
      ∧ OutLine.keyInfoLabeled "Chain class"
          "Unknown -- serialized[\x27id\x27] is missing" false ∈
        ((AllChainDetails.mk b OutputFormatter).on_chain_start serialized inputs
          kwargs).lines
      ∧ (b = true → OutLine.breakpointHit ∈
        ((AllChainDetails.mk b OutputFormatter).on_chain_start serialized inputs
          kwargs).lines))
    ∧ (∀ (b : Bool) (serialized inputs kwargs : Dict) (r p : PyVal) (ids : List String),
      List.lookup "run_id" kwargs = some r →
      List.lookup "parent_run_id" kwargs = some p →
      List.lookup "id" serialized = some (PyVal.strList ids) →
      OutLine.keyInfoLabeled "Chain class" (String.intercalate "." ids) false ∈
        ((AllChainDetails.mk b OutputFormatter).on_chain_start serialized inputs
          kwargs).lines)
    ∧ (∀ (b : Bool) (serialized : Dict) (query run_id : String)
        (parent_run_id : Option String) (tags : Option (List String))
        (metadata : Option Dict) (kwargs : Dict),
      List.lookup "id" serialized = none →
      OutLine.debugError "Missing serialized[\x27id\x27]" ∈
        ((AllChainDetails.mk b OutputFormatter).on_retriever_start serialized query run_id
          parent_run_id tags metadata kwargs).lines
      ∧ OutLine.keyInfoLabeled "Retriever class"
          "Unknown -- serialized[\x27id\x27] is missing" false ∈
        ((AllChainDetails.mk b OutputFormatter).on_retriever_start serialized query run_id
          parent_run_id tags metadata kwargs).lines
      ∧ (b = true → OutLine.breakpointHit ∈
        ((AllChainDetails.mk b OutputFormatter).on_retriever_start serialized query run_id
          parent_run_id tags metadata kwargs).lines))
    ∧ (∀ (b : Bool) (serialized : Dict) (query run_id : String)
        (parent_run_id : Option String) (tags : Option (List String))
        (metadata : Option Dict) (kwargs : Dict) (ids : List String),
      List.lookup "id" serialized = some (PyVal.strList ids) →
      OutLine.keyInfoLabeled "Retriever class" (String.intercalate "." ids) false ∈
        ((AllChainDetails.mk b OutputFormatter).on_retriever_start serialized query run_id
          parent_run_id tags metadata kwargs).lines) := by
  refine ⟨by decide, ?_, ?_, ?_, ?_⟩
  · intro b serialized inputs kwargs r p hr hp hid
    refine ⟨?_, ?_, ?_⟩
    · rcases inputs with _ | ⟨kv, ins⟩ <;> cases b <;>
        simp [AllChainDetails.on_chain_start, hid, hr, hp, OutputFormatter]
    · rcases inputs with _ | ⟨kv, ins⟩ <;> cases b <;>
        simp [AllChainDetails.on_chain_start, hid, hr, hp, OutputFormatter]
    · intro hb
      subst hb
      rcases inputs with _ | ⟨kv, ins⟩ <;>
        simp [AllChainDetails.on_chain_start, hid, hr, hp, OutputFormatter]
  · intro b serialized inputs kwargs r p ids hr hp hid
    rcases inputs with _ | ⟨kv, ins⟩ <;> cases b <;>
      simp [AllChainDetails.on_chain_start, hid, hr, hp, pyJoin, OutputFormatter]
  · intro b serialized query run_id parent_run_id tags metadata kwargs hid
    refine ⟨?_, ?_, ?_⟩
    · cases b <;> simp [AllChainDetails.on_retriever_start, hid, OutputFormatter]
    · cases b <;> simp [AllChainDetails.on_retriever_start, hid, OutputFormatter]
    · intro hb
      subst hb
      simp [AllChainDetails.on_retriever_start, hid, OutputFormatter]
  · intro b serialized query run_id parent_run_id tags metadata kwargs ids hid
    cases b <;>
      simp [AllChainDetails.on_retriever_start, hid, pyJoin, OutputFormatter]

/-- C7 witness: concrete applications of the sentinel theorem. -/
theorem C7_witness :
    OutLine.keyInfoLabeled "Chain class" "Unknown -- serialized[\x27id\x27] is missing"
        false ∈
      ((AllChainDetails.mk false OutputFormatter).on_chain_start [] [("q", PyVal.s "x")]
        [("run_id", PyVal.s "r1"), ("parent_run_id", PyVal.pynone)]).lines
    ∧ OutLine.keyInfoLabeled "Retriever class" "a.b" false ∈
      ((AllChainDetails.mk false OutputFormatter).on_retriever_start
        [("id", PyVal.strList ["a", "b"])] "q" "r1" none none none []).lines := by
  constructor
  · exact (C7_missing_id_sentinel.2.1 false [] [("q", PyVal.s "x")]
      [("run_id", PyVal.s "r1"), ("parent_run_id", PyVal.pynone)]
      (PyVal.s "r1") PyVal.pynone (by decide) (by decide) (by decide)).2.1
  · have h := C7_missing_id_sentinel.2.2.2.2 false [("id", PyVal.strList ["a", "b"])]
      "q" "r1" none none none [] ["a", "b"] (by decide)
    have h2 : String.intercalate "." ["a", "b"] = "a.b" := by decide
    rw [h2] at h
    exact h

/-- Helper: character membership distributes over string concatenation. -/
theorem strHasChar_append (s t : String) (c : Char) :
    strHasChar (s ++ t) c = (strHasChar s c || strHasChar t c) := by
  simp [strHasChar, String.data_append]

/-- C4: for an llm-start payload with the two prompts a and b whose
identifier strings are free of the letter b: in non-verbose mode the
transcript prints prompt a and the suppression warning and no line of it
mentions the letter b; in verbose mode the transcript prints prompt a,
some line mentions the letter b (the Prompts debug line), and the handler
suspends at a breakpoint. -/
theorem C4_llm_start_two_prompts (r p : String) (serialized kwargs : Dict)
    (hr : List.lookup "run_id" kwargs = some (PyVal.s r))
    (hp : List.lookup "parent_run_id" kwargs = some (PyVal.s p))
    (hrb : strHasChar r 'b' = false)
    (hpb : strHasChar p 'b' = false) :
    (OutLine.llmCall "a" ∈
        ((AllChainDetails.mk false OutputFormatter).on_llm_start serialized ["a", "b"]
          kwargs).lines
      ∧ OutLine.debugError "Only outputting first item in prompts." ∈
        ((AllChainDetails.mk false OutputFormatter).on_llm_start serialized ["a", "b"]
          kwargs).lines
      ∧ ∀ l ∈ ((AllChainDetails.mk false OutputFormatter).on_llm_start serialized
          ["a", "b"] kwargs).lines, lineHasChar l 'b' = false)
    ∧ (OutLine.llmCall "a" ∈
        ((AllChainDetails.mk true OutputFormatter).on_llm_start serialized ["a", "b"]
          kwargs).lines
      ∧ (∃ l ∈ ((AllChainDetails.mk true OutputFormatter).on_llm_start serialized
          ["a", "b"] kwargs).lines, lineHasChar l 'b' = true)
      ∧ OutLine.breakpointHit ∈
        ((AllChainDetails.mk true OutputFormatter).on_llm_start serialized ["a", "b"]
          kwargs).lines) := by
  refine ⟨⟨?_, ?_, ?_⟩, ?_, ?_, ?_⟩
  · simp [AllChainDetails.on_llm_start, hr, hp, OutputFormatter]
  · simp [AllChainDetails.on_llm_start, hr, hp, OutputFormatter]
  · simp only [AllChainDetails.on_llm_start, hr, hp, OutputFormatter]
    intro l hl
    fin_cases hl <;>
      simp only [lineHasChar, lineText, pyStr, strHasChar_append, hrb, hpb] <;> decide
  · simp [AllChainDetails.on_llm_start, hr, hp, OutputFormatter]
  · refine ⟨OutLine.debugInfoLabeled "Prompts" (pyStrList ["a", "b"]) false, ?_, ?_⟩
    · simp [AllChainDetails.on_llm_start, hr, hp, OutputFormatter]
    · decide
  · simp [AllChainDetails.on_llm_start, hr, hp, OutputFormatter]

/-- C4 witness: concrete application of the two-prompt theorem. -/
theorem C4_witness :
    OutLine.llmCall "a" ∈
      ((AllChainDetails.mk false OutputFormatter).on_llm_start []
        ["a", "b"] [("run_id", PyVal.s "r1"), ("parent_run_id", PyVal.s "None")]).lines :=
  (C4_llm_start_two_prompts "r1" "None" []
    [("run_id", PyVal.s "r1"), ("parent_run_id", PyVal.s "None")]
    (by decide) (by decide) (by decide) (by decide)).1.1

/-- A printed input key/value line labeled with one of the two excluded
keys. -/
def isStopLine : OutLine → Bool
  | .keyInfoLabeled lb _ _ => lb == "   stop" || lb == "   agent_scratchpad"
  | _ => false

/-- Helper: the key/value lines of the chain-input loop never carry an
excluded key. -/
theorem stopFilter_inputLines (inputs : Dict) :
    List.filter isStopLine (List.filterMap (fun kv =>
      if kv.1 = "stop" ∨ kv.1 = "agent_scratchpad" then none
      else some (OutLine.keyInfoLabeled ("   " ++ kv.1) (pyStr kv.2) false)) inputs)
      = [] := by
  induction inputs with
  | nil => rfl
  | cons kv ins ih =>
      rw [List.filterMap_cons]
      split
      · exact ih
      · rename_i b1 hc
        split at hc
        · exact absurd hc (by simp)
        · rename_i hcond
          push_neg at hcond
          rw [← Option.some.inj hc, List.filter_cons]
          have hve : isStopLine
              (OutLine.keyInfoLabeled ("   " ++ kv.1) (pyStr kv.2) false) = false := by
            simp only [isStopLine, Bool.or_eq_false_iff, beq_eq_false_iff_ne]
            constructor
            · intro h
              exact hcond.1 (string_append_cancel "   " kv.1 "stop" (h.trans (by decide)))
            · intro h
              exact hcond.2 (string_append_cancel "   " kv.1 "agent_scratchpad"
                (h.trans (by decide)))
          simp [hve, ih]

/-- Helper: whenever the chain-start handler reaches its input loop, its
transcript splits around the loop lines. -/
theorem chain_start_lines_split (b : Bool) (serialized : Dict) (kv0 : String × PyVal)
    (ins kwargs : Dict) (r p : PyVal)
    (hr : List.lookup "run_id" kwargs = some r)
    (hp : List.lookup "parent_run_id" kwargs = some p)
    (hid : List.lookup "id" serialized = none
      ∨ ∃ ids, List.lookup "id" serialized = some (PyVal.strList ids)) :
    ∃ pre post,
      ((AllChainDetails.mk b OutputFormatter).on_chain_start serialized (kv0 :: ins)
          kwargs).lines
        = pre ++ (List.filterMap (fun kv =>
            if kv.1 = "stop" ∨ kv.1 = "agent_scratchpad" then none
            else some (OutLine.keyInfoLabeled ("   " ++ kv.1) (pyStr kv.2) false))
            (kv0 :: ins) ++ post) := by
  rcases hid with hid | ⟨ids, hid⟩ <;> cases b
  · refine ⟨[OutLine.heading "\n\n> Starting new chain.",
      OutLine.debugError "Missing serialized[\x27id\x27]",
      OutLine.keyInfoLabeled "Chain class" "Unknown -- serialized[\x27id\x27] is missing"
        false,
      OutLine.keyInfoLabeled "Chain ID" (pyStr r) false,
      OutLine.keyInfoLabeled "Parent chain ID" (pyStr p) false,
      OutLine.keyInfo "Iterating through keys/values of chain inputs:"], [], ?_⟩
    simp [AllChainDetails.on_chain_start, hid, hr, hp, OutputFormatter]
  · refine ⟨[OutLine.heading "\n\n> Starting new chain.",
      OutLine.debugError "Missing serialized[\x27id\x27]",
      OutLine.debugInfoLabeled "serialized" (pyStrDict serialized) false,
      OutLine.breakpointHit,
      OutLine.keyInfoLabeled "Chain class" "Unknown -- serialized[\x27id\x27] is missing"
        false,
      OutLine.keyInfoLabeled "Chain ID" (pyStr r) false,
      OutLine.keyInfoLabeled "Parent chain ID" (pyStr p) false,
      OutLine.keyInfo "Iterating through keys/values of chain inputs:"],
      [OutLine.debugInfoLabeled "Arguments" (pyStrDict kwargs) false,
       OutLine.debugInfoLabeled "inputs" (pyStrDict (kv0 :: ins)) false,
       OutLine.debugInfoLabeled "serialized" (pyStrDict serialized) false], ?_⟩
    simp [AllChainDetails.on_chain_start, hid, hr, hp, OutputFormatter]
  · refine ⟨[OutLine.heading "\n\n> Starting new chain.",
      OutLine.keyInfoLabeled "Chain class" (String.intercalate "." ids) false,
      OutLine.keyInfoLabeled "Chain ID" (pyStr r) false,
      OutLine.keyInfoLabeled "Parent chain ID" (pyStr p) false,
      OutLine.keyInfo "Iterating through keys/values of chain inputs:"], [], ?_⟩
    simp [AllChainDetails.on_chain_start, hid, hr, hp, pyJoin, OutputFormatter]
  · refine ⟨[OutLine.heading "\n\n> Starting new chain.",
      OutLine.keyInfoLabeled "Chain class" (String.intercalate "." ids) false,
      OutLine.keyInfoLabeled "Chain ID" (pyStr r) false,
      OutLine.keyInfoLabeled "Parent chain ID" (pyStr p) false,
      OutLine.keyInfo "Iterating through keys/values of chain inputs:"],
      [OutLine.debugInfoLabeled "Arguments" (pyStrDict kwargs) false,
       OutLine.debugInfoLabeled "inputs" (pyStrDict (kv0 :: ins)) false,
       OutLine.debugInfoLabeled "serialized" (pyStrDict serialized) false], ?_⟩
    simp [AllChainDetails.on_chain_start, hid, hr, hp, pyJoin, OutputFormatter]

/-- C5: the chain-start handler never prints an input key/value line for the
keys stop or agent_scratchpad, and prints every other key of the input
mapping with its value. -/
theorem C5_chain_start_key_filtering (b : Bool) (serialized inputs kwargs : Dict)
    (r p : PyVal)
    (hr : List.lookup "run_id" kwargs = some r)
    (hp : List.lookup "parent_run_id" kwargs = some p)
    (hid : List.lookup "id" serialized = none
      ∨ ∃ ids, List.lookup "id" serialized = some (PyVal.strList ids)) :
    List.filter isStopLine
        ((AllChainDetails.mk b OutputFormatter).on_chain_start serialized inputs
          kwargs).lines = []
    ∧ ∀ kv ∈ inputs, kv.1 ≠ "stop" → kv.1 ≠ "agent_scratchpad" →
        OutLine.keyInfoLabeled ("   " ++ kv.1) (pyStr kv.2) false ∈
          ((AllChainDetails.mk b OutputFormatter).on_chain_start serialized inputs
            kwargs).lines := by
  constructor
  · rcases hid with hid | ⟨ids, hid⟩ <;> rcases inputs with _ | ⟨kv0, ins⟩ <;> cases b <;>
      simp [AllChainDetails.on_chain_start, hid, hr, hp, pyJoin, OutputFormatter,
        List.filter_append, stopFilter_inputLines, isStopLine]
  · rcases inputs with _ | ⟨kv0, ins⟩
    · intro kv hkv
      exact absurd hkv (List.not_mem_nil kv)
    · intro kv hkv hk1 hk2
      have hmem : OutLine.keyInfoLabeled ("   " ++ kv.1) (pyStr kv.2) false ∈
          List.filterMap (fun kv =>
            if kv.1 = "stop" ∨ kv.1 = "agent_scratchpad" then none
            else some (OutLine.keyInfoLabeled ("   " ++ kv.1) (pyStr kv.2) false))
            (kv0 :: ins) :=
        List.mem_filterMap.2 ⟨kv, hkv, by simp [hk1, hk2]⟩
      obtain ⟨pre, post, hL⟩ :=
        chain_start_lines_split b serialized kv0 ins kwargs r p hr hp hid
      rw [hL]
      exact List.mem_append_right pre (List.mem_append_left post hmem)

/-- C5 witness: concrete application of the key-filtering theorem. -/
theorem C5_witness :
    OutLine.keyInfoLabeled ("   " ++ "food") (pyStr (PyVal.s "chocolate")) false ∈
      ((AllChainDetails.mk false OutputFormatter).on_chain_start
        [("id", PyVal.strList ["x"])]
        [("food", PyVal.s "chocolate"), ("stop", PyVal.s "ignored")]
        [("run_id", PyVal.s "r1"), ("parent_run_id", PyVal.pynone)]).lines :=
  (C5_chain_start_key_filtering false [("id", PyVal.strList ["x"])]
    [("food", PyVal.s "chocolate"), ("stop", PyVal.s "ignored")]
    [("run_id", PyVal.s "r1"), ("parent_run_id", PyVal.pynone)]
    (PyVal.s "r1") PyVal.pynone (by decide) (by decide)
    (Or.inr ⟨["x"], by decide⟩)).2
    ("food", PyVal.s "chocolate") (by decide) (by decide) (by decide)

end VertexWrapper
